import Mathlib

/-!
Verification of the cfrss polling-and-deduplication scheduler.

This file gives a shallow embedding of the Go sources:
* `pkg/scheduler` — the `CodeforcesScheduler` struct, its `filter` method and
  the per-cycle body of `Start` (fetch, filter, persist, commit watermark);
* `pkg/store/mongodb` — `AddRecentActions` and
  `LastRecordedTimestampForRecentActions`;
* `pkg/cfapi` — `RecentActions`;
* `cmd` `main` — the startup seeding of the watermark.

External I/O (the HTTP transport, JSON unmarshalling, the mongo driver) is
represented by explicit outcome values and oracle functions passed in as
parameters; everything the repository's own code does with those outcomes is
translated line by line.  Go `int64` timestamps are modelled as `Int` (the code
only compares and copies them, so no overflow arithmetic occurs).  A Go slice
that may be `nil` is modelled as `Option (List _)` with `none` for the `nil`
slice; a slice built only by `append` starting from a `var` declaration is
`nil` exactly when it is empty.
-/

namespace Cfrss

/-- `models.RecentAction`: the scheduler reads only `TimeSeconds`; every other
field is opaque payload carried through unmodified, collapsed here into one
`payload` field. -/
structure RecentAction where
  timeSeconds : Int
  payload : String
  deriving DecidableEq

/-- The scheduler state owned across cycles (`cfClient`, `cfStore` and
`cooldown` are external collaborators / plumbing and are passed to the cycle
function as oracles). -/
structure CodeforcesScheduler where
  lastInsertedTimestamp : Int
  batchSize : Int
  deriving DecidableEq

/-- The `for _, action := range actions` loop body of `scheduler.filter`:
`maxTimestampAfterInsertion` and `newActions` are the two loop accumulators,
`w` is the (unchanging) `sch.lastInsertedTimestamp` read by the comparison. -/
def filterLoop (w : Int) (maxT : Int) (newActions : List RecentAction) :
    List RecentAction → List RecentAction × Int
  | [] => (newActions, maxT)
  | action :: rest =>
    let now := action.timeSeconds
    let maxT' := if now > maxT then now else maxT
    let newActions' := if now > w then newActions ++ [action] else newActions
    filterLoop w maxT' newActions' rest

/-- `scheduler.filter`: scans the batch once, starting
`maxTimestampAfterInsertion` at `sch.lastInsertedTimestamp` and `newActions`
at the `nil` slice. -/
def CodeforcesScheduler.filter (sch : CodeforcesScheduler)
    (actions : List RecentAction) : List RecentAction × Int :=
  filterLoop sch.lastInsertedTimestamp sch.lastInsertedTimestamp [] actions

/-- `scheduler.filter` as a method on the receiver state: the Go body contains
no assignment to any field of `sch`, so the post-state of the receiver is the
pre-state. -/
def CodeforcesScheduler.filterM (sch : CodeforcesScheduler)
    (actions : List RecentAction) :
    (List RecentAction × Int) × CodeforcesScheduler :=
  (sch.filter actions, sch)

/-- `mongodb.AddRecentActions`.  `insertMany` is the mongo driver's
`InsertMany` oracle.  The input slice is `Option`-typed because the Go code
branches on `actions == nil`.  Returns the Go `error` result together with the
document list handed to `InsertMany` (`none` when no insertion was
attempted). -/
def addRecentActions (insertMany : List RecentAction → Except String Unit)
    (actions : Option (List RecentAction)) :
    Except String Unit × Option (List RecentAction) :=
  match actions with
  | none => (Except.ok (), none)
  | some as =>
    let docs := as
    match insertMany docs with
    | Except.error e =>
      (Except.error ("bulk insert failed with error [" ++ e ++ "]"), some docs)
    | Except.ok _ => (Except.ok (), some docs)

/-- Observable outcome of one iteration of the `Start` loop (the cycle ends
with the unconditional cooldown sleep in every case). -/
structure CycleResult where
  sch : CodeforcesScheduler
  fetchError : Option String
  insertAttempt : Option (List RecentAction)
  appendError : Option String
  persisted : List RecentAction
  deriving DecidableEq

/-- One iteration of `scheduler.Start`:
fetch via `cfClient.RecentActions` (outcome `fetchResult`), on success filter
and call `cfStore.AddRecentActions(newActions)`, and only on append success
commit `lastInsertedTimestamp = maxTimestampAfterInsertion`.
`newActions` is built by `append` from a `nil` slice, so the value passed to
`AddRecentActions` is `nil` exactly when the filtered list is empty. -/
def runCycle (fetchResult : Except String (List RecentAction))
    (insertMany : List RecentAction → Except String Unit)
    (sch : CodeforcesScheduler) : CycleResult :=
  match fetchResult with
  | Except.error e =>
    { sch := sch, fetchError := some e, insertAttempt := none,
      appendError := none, persisted := [] }
  | Except.ok actions =>
    let fr := sch.filter actions
    let newActions := fr.1
    let maxTimestampAfterInsertion := fr.2
    let arg : Option (List RecentAction) :=
      if newActions.isEmpty then none else some newActions
    let ar := addRecentActions insertMany arg
    match ar.1 with
    | Except.error e =>
      { sch := sch, fetchError := none, insertAttempt := ar.2,
        appendError := some e, persisted := [] }
    | Except.ok _ =>
      { sch := { sch with lastInsertedTimestamp := maxTimestampAfterInsertion },
        fetchError := none, insertAttempt := ar.2, appendError := none,
        persisted := ar.2.getD [] }

/-- The `for { ... }` loop of `Start`, run over a finite prefix of the
process lifetime: each list element supplies the external outcomes (fetch
result and store oracle) of one cycle. -/
def runTrace
    (cycles : List (Except String (List RecentAction) ×
      (List RecentAction → Except String Unit)))
    (sch : CodeforcesScheduler) : CodeforcesScheduler :=
  match cycles with
  | [] => sch
  | c :: rest => runTrace rest (runCycle c.1 c.2 sch).sch

/-- `cfapi.kStatusOK`. -/
def kStatusOK : String := "OK"

/-- The anonymous wrapper struct `json.Unmarshal` fills in
`cfapi.RecentActions`. -/
structure CFWrapper where
  status : String
  comment : String
  result : List RecentAction
  deriving DecidableEq

/-- Outcome of the HTTP side of `cfapi.RecentActions`: request construction,
transport and body read can each fail; otherwise a body is obtained. -/
inductive HttpOutcome where
  | requestError (e : String)
  | transportError (e : String)
  | readError (e : String)
  | body (b : String)
  deriving DecidableEq

/-- `cfapi.RecentActions`: the error branches in source order, then the
unmarshal (`unmarshal` is the `json.Unmarshal` oracle on the body bytes) and
the remote-status check against `kStatusOK`. -/
def recentActions (env : HttpOutcome)
    (unmarshal : String → Except String CFWrapper) :
    Except String (List RecentAction) :=
  match env with
  | HttpOutcome.requestError e =>
    Except.error ("could not create request for /recentActions api with error ["
      ++ e ++ "]")
  | HttpOutcome.transportError e =>
    Except.error ("http call to /recentActions failed with error [" ++ e ++ "]")
  | HttpOutcome.readError e =>
    Except.error ("could not read response of /recentActions with error ["
      ++ e ++ "]")
  | HttpOutcome.body b =>
    match unmarshal b with
    | Except.error e =>
      Except.error ("could not unmarshal /recentActions response with error ["
        ++ e ++ "]")
    | Except.ok wrapper =>
      if wrapper.status ≠ kStatusOK then
        Except.error ("codeforces returned an internal error with comment ["
          ++ wrapper.comment ++ "]")
      else Except.ok wrapper.result

/-- `mongodb.LastRecordedTimestampForRecentActions`.  `agg` is the outcome of
the `Aggregate` call: either a driver error, or the cursor's document list
where each document either decodes to the `Max int64` field or fails to
decode.  The Go code returns `0` on aggregate error, returns on the first
document (its `Max`, or `0` on decode error), and returns `0` when the cursor
is empty. -/
def lastRecordedTimestampForRecentActions
    (agg : Except String (List (Except String Int))) : Int :=
  match agg with
  | Except.error _ => 0
  | Except.ok docs =>
    match docs with
    | [] => 0
    | d :: _ =>
      match d with
      | Except.error _ => 0
      | Except.ok m => m

/-- `scheduler.NewScheduler` restricted to the fields the core logic reads. -/
def newScheduler (batchSize : Int) (lastInsertedTimestamp : Int) :
    CodeforcesScheduler :=
  { lastInsertedTimestamp := lastInsertedTimestamp, batchSize := batchSize }

/-- The watermark-seeding part of `main`: query
`LastRecordedTimestampForRecentActions` once and construct the scheduler with
it, before any cycle (and hence any fetch) runs. -/
def mainStartup (agg : Except String (List (Except String Int)))
    (batchSize : Int) : CodeforcesScheduler :=
  newScheduler batchSize (lastRecordedTimestampForRecentActions agg)

/-- Whether a fetch outcome is the Go `err != nil` case. -/
def isErr : Except String (List RecentAction) → Bool
  | Except.error _ => true
  | Except.ok _ => false

/-! ### Helper lemmas -/

lemma ite_gt_eq_max (a b : Int) : (if a > b then a else b) = max b a := by
  rcases le_or_lt a b with h | h
  · rw [if_neg (not_lt.mpr h), max_eq_left h]
  · rw [if_pos h, max_eq_right h.le]

/-- The single pass of `scheduler.filter` computes the order-preserving
`List.filter` of the strict-threshold predicate alongside the running maximum
of all timestamps seen. -/
lemma filterLoop_eq (w : Int) (l : List RecentAction) :
    ∀ (maxT : Int) (acc : List RecentAction),
    filterLoop w maxT acc l =
      (acc ++ l.filter (fun a => w < a.timeSeconds),
        (l.map (fun a => a.timeSeconds)).foldl max maxT) := by
  induction l with
  | nil => intro maxT acc; simp [filterLoop]
  | cons a l ih =>
    intro maxT acc
    by_cases h : a.timeSeconds > w
    · simp [filterLoop, ih, List.filter_cons, h, ite_gt_eq_max]
    · simp [filterLoop, ih, List.filter_cons, h, ite_gt_eq_max,
        not_lt.mp h]

lemma filter_fst (sch : CodeforcesScheduler) (actions : List RecentAction) :
    (sch.filter actions).1 =
      actions.filter (fun a => sch.lastInsertedTimestamp < a.timeSeconds) := by
  rw [CodeforcesScheduler.filter, filterLoop_eq]
  simp

lemma filter_snd (sch : CodeforcesScheduler) (actions : List RecentAction) :
    (sch.filter actions).2 =
      (actions.map (fun a => a.timeSeconds)).foldl max
        sch.lastInsertedTimestamp := by
  rw [CodeforcesScheduler.filter, filterLoop_eq]

lemma le_foldl_max (l : List Int) : ∀ b : Int, b ≤ l.foldl max b := by
  induction l with
  | nil => intro b; exact le_refl b
  | cons a l ih => intro b; exact le_trans (le_max_left b a) (ih (max b a))

lemma watermark_le_filter_snd (sch : CodeforcesScheduler)
    (actions : List RecentAction) :
    sch.lastInsertedTimestamp ≤ (sch.filter actions).2 := by
  rw [filter_snd]
  exact le_foldl_max _ _

lemma watermark_le_runCycle (fetchResult : Except String (List RecentAction))
    (insertMany : List RecentAction → Except String Unit)
    (sch : CodeforcesScheduler) :
    sch.lastInsertedTimestamp ≤
      (runCycle fetchResult insertMany sch).sch.lastInsertedTimestamp := by
  rcases fetchResult with e | actions
  · exact le_refl _
  · rw [runCycle]
    split
    · exact le_refl _
    · exact watermark_le_filter_snd sch actions

lemma watermark_le_runTrace
    (cycles : List (Except String (List RecentAction) ×
      (List RecentAction → Except String Unit))) :
    ∀ sch : CodeforcesScheduler,
      sch.lastInsertedTimestamp ≤ (runTrace cycles sch).lastInsertedTimestamp := by
  induction cycles with
  | nil => intro sch; exact le_refl _
  | cons c cs ih =>
    intro sch
    exact le_trans (watermark_le_runCycle c.1 c.2 sch) (ih _)

/-! ### Claims -/

/-- C1: for every batch (in any order) and watermark W ≥ 0, `filter` returns
exactly the items with `timeSeconds > W`, in input order and unmodified,
together with `candidateWatermark = max(W, max of timeSeconds over all items
of the batch)`. -/
theorem C1_filter_spec (sch : CodeforcesScheduler) (actions : List RecentAction)
    (hW : 0 ≤ sch.lastInsertedTimestamp) :
    (sch.filter actions).1 =
      actions.filter (fun a => sch.lastInsertedTimestamp < a.timeSeconds) ∧
    (sch.filter actions).2 =
      (actions.map (fun a => a.timeSeconds)).foldl max
        sch.lastInsertedTimestamp :=
  ⟨filter_fst sch actions, filter_snd sch actions⟩

/-- Witness for C1 at watermark 7 and batch `[{t:10,"p"}, {t:5,"q"}]`. -/
theorem C1_filter_spec_witness :
    ((newScheduler 100 7).filter
        [RecentAction.mk 10 "p", RecentAction.mk 5 "q"]).1 =
      [RecentAction.mk 10 "p", RecentAction.mk 5 "q"].filter
        (fun a => (newScheduler 100 7).lastInsertedTimestamp < a.timeSeconds) ∧
    ((newScheduler 100 7).filter
        [RecentAction.mk 10 "p", RecentAction.mk 5 "q"]).2 =
      ([RecentAction.mk 10 "p", RecentAction.mk 5 "q"].map
          (fun a => a.timeSeconds)).foldl max
        (newScheduler 100 7).lastInsertedTimestamp :=
  C1_filter_spec (newScheduler 100 7)
    [RecentAction.mk 10 "p", RecentAction.mk 5 "q"] (by decide)

/-- C2: the committed watermark never decreases: across one cycle for every
fetch/append outcome, within `filter` (candidateWatermark ≥ input watermark),
and across any finite prefix of the process lifetime. -/
theorem C2_watermark_monotone :
    (∀ (fetchResult : Except String (List RecentAction))
        (insertMany : List RecentAction → Except String Unit)
        (sch : CodeforcesScheduler),
      sch.lastInsertedTimestamp ≤
        (runCycle fetchResult insertMany sch).sch.lastInsertedTimestamp) ∧
    (∀ (sch : CodeforcesScheduler) (actions : List RecentAction),
      sch.lastInsertedTimestamp ≤ (sch.filter actions).2) ∧
    (∀ (cycles : List (Except String (List RecentAction) ×
        (List RecentAction → Except String Unit)))
        (sch : CodeforcesScheduler),
      sch.lastInsertedTimestamp ≤ (runTrace cycles sch).lastInsertedTimestamp) :=
  ⟨watermark_le_runCycle, watermark_le_filter_snd,
    fun cycles sch => watermark_le_runTrace cycles sch⟩

/-- C4: the three concrete filter vectors of the spec. -/
theorem C4_filter_vectors :
    (newScheduler 100 42).filter [] = ([], 42) ∧
    (newScheduler 100 5).filter [RecentAction.mk 3 "", RecentAction.mk 3 ""] =
      ([], 5) ∧
    (newScheduler 100 7).filter [RecentAction.mk 10 "", RecentAction.mk 5 ""] =
      ([RecentAction.mk 10 ""], 10) := by
  refine ⟨rfl, rfl, rfl⟩

/-- C6: `filter` is pure and idempotent: it leaves the scheduler state
unchanged, a second call on the post-state returns the same
`(newItems, candidateWatermark)`, and the result depends only on the
watermark field and the batch. -/
theorem C6_filter_idempotent (sch : CodeforcesScheduler)
    (actions : List RecentAction) :
    (sch.filterM actions).2 = sch ∧
    ((sch.filterM actions).2.filterM actions).1 = (sch.filterM actions).1 ∧
    (∀ sch' : CodeforcesScheduler,
      sch'.lastInsertedTimestamp = sch.lastInsertedTimestamp →
        sch'.filter actions = sch.filter actions) := by
  refine ⟨rfl, rfl, fun sch' h => ?_⟩
  rw [CodeforcesScheduler.filter, CodeforcesScheduler.filter, h]

/-- Witness for C6: two schedulers sharing only the watermark field filter a
batch identically. -/
theorem C6_filter_idempotent_witness :
    ((newScheduler 2 3).filterM [RecentAction.mk 4 "x"]).2 = newScheduler 2 3 ∧
    (newScheduler 9 3).filter [RecentAction.mk 4 "x"] =
      (newScheduler 2 3).filter [RecentAction.mk 4 "x"] :=
  ⟨(C6_filter_idempotent (newScheduler 2 3) [RecentAction.mk 4 "x"]).1,
    (C6_filter_idempotent (newScheduler 2 3) [RecentAction.mk 4 "x"]).2.2
      (newScheduler 9 3) rfl⟩

/-- C3: on fetch error the cycle skips filtering and persistence and leaves
the watermark unchanged; on append error the watermark is unchanged; the
watermark is set to candidateWatermark only on a cycle with no fetch and no
append error; and after any cycle outcome the loop continues with the next
cycle. -/
theorem C3_failure_isolation :
    (∀ (e : String) (insertMany : List RecentAction → Except String Unit)
        (sch : CodeforcesScheduler),
      runCycle (Except.error e) insertMany sch =
        { sch := sch, fetchError := some e, insertAttempt := none,
          appendError := none, persisted := [] }) ∧
    (∀ (fetchResult : Except String (List RecentAction))
        (insertMany : List RecentAction → Except String Unit)
        (sch : CodeforcesScheduler),
      (runCycle fetchResult insertMany sch).appendError.isSome = true →
        (runCycle fetchResult insertMany sch).sch = sch) ∧
    (∀ (actions : List RecentAction)
        (insertMany : List RecentAction → Except String Unit)
        (sch : CodeforcesScheduler),
      (runCycle (Except.ok actions) insertMany sch).appendError = none →
        (runCycle (Except.ok actions) insertMany sch).sch.lastInsertedTimestamp
          = (sch.filter actions).2) ∧
    (∀ (c : Except String (List RecentAction) ×
        (List RecentAction → Except String Unit))
        (cycles : List (Except String (List RecentAction) ×
          (List RecentAction → Except String Unit)))
        (sch : CodeforcesScheduler),
      runTrace (c :: cycles) sch = runTrace cycles (runCycle c.1 c.2 sch).sch) := by
  refine ⟨fun e insertMany sch => rfl, ?_, ?_, fun c cycles sch => rfl⟩
  · intro fetchResult insertMany sch h
    rcases fetchResult with e | actions
    · rfl
    · rw [runCycle] at h ⊢
      split at h
      · rfl
      · simp at h
  · intro actions insertMany sch h
    rw [runCycle] at h ⊢
    split at h
    · simp at h
    · rfl

/-- Witness for C3: a failing store leaves the watermark untouched, and a
clean cycle commits candidateWatermark. -/
theorem C3_failure_isolation_witness :
    (runCycle (Except.ok [RecentAction.mk 1 ""])
        (fun _ => Except.error "boom") (newScheduler 1 0)).sch =
      newScheduler 1 0 ∧
    (runCycle (Except.ok [RecentAction.mk 1 ""])
        (fun _ => Except.ok ()) (newScheduler 1 0)).sch.lastInsertedTimestamp =
      ((newScheduler 1 0).filter [RecentAction.mk 1 ""]).2 :=
  ⟨C3_failure_isolation.2.1 _ _ _ rfl, C3_failure_isolation.2.2.1 _ _ _ rfl⟩

/-- C5: end-to-end: from watermark 100, the batch
`[{t:90},{t:110},{t:105}]` persists `[{t:110},{t:105}]` in that order and
commits watermark 110; the follow-up replay batch `[{t:110},{t:108}]`
persists nothing (no insertion attempt) and the watermark stays 110. -/
theorem C5_end_to_end :
    (runCycle (Except.ok
        [RecentAction.mk 90 "a", RecentAction.mk 110 "b",
          RecentAction.mk 105 "c"])
      (fun _ => Except.ok ()) (newScheduler 100 100)).persisted =
        [RecentAction.mk 110 "b", RecentAction.mk 105 "c"] ∧
    (runCycle (Except.ok
        [RecentAction.mk 90 "a", RecentAction.mk 110 "b",
          RecentAction.mk 105 "c"])
      (fun _ => Except.ok ())
      (newScheduler 100 100)).sch.lastInsertedTimestamp = 110 ∧
    (runCycle (Except.ok [RecentAction.mk 110 "b", RecentAction.mk 108 "d"])
      (fun _ => Except.ok ())
      (runCycle (Except.ok
          [RecentAction.mk 90 "a", RecentAction.mk 110 "b",
            RecentAction.mk 105 "c"])
        (fun _ => Except.ok ()) (newScheduler 100 100)).sch).insertAttempt =
      none ∧
    (runCycle (Except.ok [RecentAction.mk 110 "b", RecentAction.mk 108 "d"])
      (fun _ => Except.ok ())
      (runCycle (Except.ok
          [RecentAction.mk 90 "a", RecentAction.mk 110 "b",
            RecentAction.mk 105 "c"])
        (fun _ => Except.ok ()) (newScheduler 100 100)).sch).persisted = [] ∧
    (runCycle (Except.ok [RecentAction.mk 110 "b", RecentAction.mk 108 "d"])
      (fun _ => Except.ok ())
      (runCycle (Except.ok
          [RecentAction.mk 90 "a", RecentAction.mk 110 "b",
            RecentAction.mk 105 "c"])
        (fun _ => Except.ok ())
        (newScheduler 100 100)).sch).sch.lastInsertedTimestamp = 110 :=
  ⟨rfl, rfl, rfl, rfl, rfl⟩

/-- C7 counterexample: on the empty but non-`nil` slice, `AddRecentActions`
does reach `InsertMany` (an insertion attempt with an empty document list),
and with a store that rejects it the call returns an error — so the empty
input is not unconditionally a successful no-op. -/
theorem C7_counterexample :
    (addRecentActions (fun _ => Except.error "write failed")
        (some ([] : List RecentAction))).2 ≠ none ∧
    (addRecentActions (fun _ => Except.error "write failed")
        (some ([] : List RecentAction))).1 ≠ Except.ok () := by
  refine ⟨?_, ?_⟩ <;> simp [addRecentActions]

/-- C7 amended: `AddRecentActions` treats a `nil` input as a successful no-op
with no insertion attempt; every non-`nil` input, the empty slice included, is
handed to `InsertMany`, and the call succeeds exactly when the insert does. -/
theorem C7_amended (insertMany : List RecentAction → Except String Unit) :
    addRecentActions insertMany none = (Except.ok (), none) ∧
    (∀ as : List RecentAction,
      (addRecentActions insertMany (some as)).2 = some as) ∧
    (∀ (as : List RecentAction) (e : String), insertMany as = Except.error e →
      (addRecentActions insertMany (some as)).1 =
        Except.error ("bulk insert failed with error [" ++ e ++ "]")) ∧
    (∀ as : List RecentAction, insertMany as = Except.ok () →
      addRecentActions insertMany (some as) = (Except.ok (), some as)) := by
  refine ⟨rfl, fun as => ?_, fun as e h => ?_, fun as h => ?_⟩
  · rw [addRecentActions]
    split <;> rfl
  · rw [addRecentActions]
    simp only [h]
  · rw [addRecentActions]
    simp only [h]

/-- Witness for C7's amended claim at a one-element batch and a succeeding
store. -/
theorem C7_amended_witness :
    addRecentActions (fun _ => Except.ok ()) (some [RecentAction.mk 1 ""]) =
      (Except.ok (), some [RecentAction.mk 1 ""]) :=
  (C7_amended (fun _ => Except.ok ())).2.2.2 [RecentAction.mk 1 ""] rfl

/-- C8: `RecentActions` errors exactly on request-construction failure,
transport failure, body-read failure, unmarshal failure, or a remote status
other than OK (the error then carrying the remote comment); otherwise it
returns the parsed item list. -/
theorem C8_recentActions_errors
    (unmarshal : String → Except String CFWrapper) :
    (∀ e, isErr (recentActions (HttpOutcome.requestError e) unmarshal)
      = true) ∧
    (∀ e, isErr (recentActions (HttpOutcome.transportError e) unmarshal)
      = true) ∧
    (∀ e, isErr (recentActions (HttpOutcome.readError e) unmarshal) = true) ∧
    (∀ b e, unmarshal b = Except.error e →
      isErr (recentActions (HttpOutcome.body b) unmarshal) = true) ∧
    (∀ b wrapper, unmarshal b = Except.ok wrapper →
      wrapper.status ≠ kStatusOK →
        recentActions (HttpOutcome.body b) unmarshal =
          Except.error ("codeforces returned an internal error with comment ["
            ++ wrapper.comment ++ "]")) ∧
    (∀ b wrapper, unmarshal b = Except.ok wrapper →
      wrapper.status = kStatusOK →
        recentActions (HttpOutcome.body b) unmarshal =
          Except.ok wrapper.result) := by
  refine ⟨fun e => rfl, fun e => rfl, fun e => rfl,
    fun b e h => ?_, fun b wrapper h hs => ?_, fun b wrapper h hs => ?_⟩
  · rw [recentActions, h]
    rfl
  · simp only [recentActions, h]
    rw [if_pos hs]
  · simp only [recentActions, h]
    rw [if_neg (fun hne => hne hs)]

/-- Witness for C8: a body whose wrapper reports status FAILED yields the
remote-status error with the remote comment, and an OK wrapper yields its
result list. -/
theorem C8_recentActions_errors_witness :
    recentActions (HttpOutcome.body "resp")
        (fun _ => Except.ok (CFWrapper.mk "FAILED" "limit exceeded" [])) =
      Except.error
        "codeforces returned an internal error with comment [limit exceeded]" ∧
    recentActions (HttpOutcome.body "resp")
        (fun _ => Except.ok (CFWrapper.mk "OK" "" [RecentAction.mk 9 "r"])) =
      Except.ok [RecentAction.mk 9 "r"] :=
  ⟨(C8_recentActions_errors
      (fun _ => Except.ok (CFWrapper.mk "FAILED" "limit exceeded" []))).2.2.2.2.1
      "resp" (CFWrapper.mk "FAILED" "limit exceeded" []) rfl (by decide),
    (C8_recentActions_errors
      (fun _ => Except.ok (CFWrapper.mk "OK" "" [RecentAction.mk 9 "r"]))).2.2.2.2.2
      "resp" (CFWrapper.mk "OK" "" [RecentAction.mk 9 "r"]) rfl rfl⟩

/-- C9: the watermark is seeded once at startup from the store's reported
maximum timestamp — `T0` when the aggregation reports `T0`, `0` when the store
holds no documents — with no fetch involved. -/
theorem C9_startup_seed (T0 : Int) (batchSize : Int) :
    (mainStartup (Except.ok [Except.ok T0]) batchSize).lastInsertedTimestamp =
      T0 ∧
    (mainStartup (Except.ok []) batchSize).lastInsertedTimestamp = 0 :=
  ⟨rfl, rfl⟩

/-- C10: `LastRecordedTimestampForRecentActions` also returns 0 when the
aggregation call or the decode of its first document fails, so a transient
store error at startup seeds the watermark to 0, and every item with a
positive timestamp is then classified as new by the next filter pass. -/
theorem C10_startup_error_resets (e : String) (batchSize : Int) :
    (mainStartup (Except.error e) batchSize).lastInsertedTimestamp = 0 ∧
    (∀ (e' : String) (rest : List (Except String Int)),
      lastRecordedTimestampForRecentActions
        (Except.ok (Except.error e' :: rest)) = 0) ∧
    (∀ batch : List RecentAction, (∀ a ∈ batch, 0 < a.timeSeconds) →
      ((mainStartup (Except.error e) batchSize).filter batch).1 = batch) := by
  refine ⟨rfl, fun e' rest => rfl, fun batch h => ?_⟩
  rw [filter_fst]
  refine List.filter_eq_self.mpr fun a ha => ?_
  simpa using h a ha

/-- Witness for C10: after a failed aggregation the seeded watermark is 0 and
a batch with positive timestamps passes the filter whole. -/
theorem C10_startup_error_resets_witness :
    ((mainStartup (Except.error "connection reset") 100).filter
        [RecentAction.mk 5 "p", RecentAction.mk 2 "q"]).1 =
      [RecentAction.mk 5 "p", RecentAction.mk 2 "q"] :=
  (C10_startup_error_resets "connection reset" 100).2.2
    [RecentAction.mk 5 "p", RecentAction.mk 2 "q"] (by decide)

end Cfrss
